import Mathlib

/-!
Shallow embedding of the Fly Stat Tracker core (counter/undo engine,
game-record store, entitlement ledger, purchase redemption) and proofs
about the claims of its specification.

Each namespace embeds one revision of the source:
 * `P000`  - the GameTracker revision in src/unnamed/part_000 (Counts with
   explicit deltas, undo history carrying reset snapshots).
 * `TsxV2` - the second revision inside
   src/src/app/components/GameTracker.tsx (unit increments, reset entries
   carrying no snapshot).
 * `TsxV1` - the first, entitlement-gated revision inside
   src/src/app/components/GameTracker.tsx (trial counted by saved games
   of the selected player, single-game credits).
 * `P001`  - the revision in src/unnamed/part_001 (Entitlements ledger
   with plan free/credits/annual, canFinishGame, spendFinishCredit, and
   the legacy Entitlement record with unlimitedUntil and canLogGame).
 * `P003`  - the upgrade-success page in src/unnamed/part_003
   (applyPlanToEnt and the session-id deduplicated redemption flow).

JavaScript numbers are modelled as Int (all values handled by this code
are integers), timestamps are Int parameters, and record updates keyed by
a computed key are modelled through a key enumeration with get/set.
-/


/-- The JavaScript string trim, written over the character list so that
it evaluates inside the kernel: drop whitespace from both ends. -/
def trimStr (s : String) : String :=
  ⟨((s.data.dropWhile Char.isWhitespace).reverse.dropWhile Char.isWhitespace).reverse⟩

namespace P000

/-- The statistic keys of the part_000 Counts record. The TS key `to`
is rendered as `tov` because `to` is a Lean keyword. -/
inductive CKey where
  | pts | fgMade | fgAtt | threeMade | threeAtt | ftMade | ftAtt
  | oreb | dreb | ast | tov | stl | fouls
  deriving DecidableEq, Repr

/-- part_000 `Counts`: one non-negative integer per statistic key. -/
structure Counts where
  pts : Int
  fgMade : Int
  fgAtt : Int
  threeMade : Int
  threeAtt : Int
  ftMade : Int
  ftAtt : Int
  oreb : Int
  dreb : Int
  ast : Int
  tov : Int
  stl : Int
  fouls : Int
  deriving DecidableEq, Repr

/-- Dynamic read `counts[key]`. -/
def Counts.get (c : Counts) : CKey → Int
  | .pts => c.pts
  | .fgMade => c.fgMade
  | .fgAtt => c.fgAtt
  | .threeMade => c.threeMade
  | .threeAtt => c.threeAtt
  | .ftMade => c.ftMade
  | .ftAtt => c.ftAtt
  | .oreb => c.oreb
  | .dreb => c.dreb
  | .ast => c.ast
  | .tov => c.tov
  | .stl => c.stl
  | .fouls => c.fouls

/-- Dynamic write, the spread update with a computed key. -/
def Counts.set (c : Counts) (k : CKey) (v : Int) : Counts :=
  match k with
  | .pts => { c with pts := v }
  | .fgMade => { c with fgMade := v }
  | .fgAtt => { c with fgAtt := v }
  | .threeMade => { c with threeMade := v }
  | .threeAtt => { c with threeAtt := v }
  | .ftMade => { c with ftMade := v }
  | .ftAtt => { c with ftAtt := v }
  | .oreb => { c with oreb := v }
  | .dreb => { c with dreb := v }
  | .ast => { c with ast := v }
  | .tov => { c with tov := v }
  | .stl => { c with stl := v }
  | .fouls => { c with fouls := v }

/-- part_000 `emptyCounts()`. -/
def emptyCounts : Counts :=
  ⟨0, 0, 0, 0, 0, 0, 0, 0, 0, 0, 0, 0, 0⟩

/-- part_000 `clampNonNeg`. -/
def clampNonNeg (n : Int) : Int := max 0 n

/-- part_000 history `Action`. The TS field named `by` is rendered as
`amt` because `by` is a Lean keyword. -/
inductive Action where
  | inc (key : CKey) (amt : Int)
  | dec (key : CKey) (amt : Int)
  | reset (prevCounts : Counts)
  deriving DecidableEq, Repr

/-- part_000 `applyDelta`: clamped add on one key. -/
def applyDelta (c : Counts) (key : CKey) (amt : Int) : Counts :=
  c.set key (clampNonNeg (c.get key + amt))

/-- The component state touched by the tap/undo machinery: live counts,
the append-at-end history array, and the last-tap timestamp used by the
debounce guard. -/
structure S where
  counts : Counts
  history : List Action
  lastTap : Int
  deriving DecidableEq, Repr

/-- part_000 `tap`: debounce, record the action at the end of the
history, then apply it (a reset action installs its snapshot). -/
def tap (st : S) (now : Int) (a : Action) : S :=
  if now - st.lastTap < 35 then st
  else
    let st1 : S := { st with lastTap := now, history := st.history.concat a }
    match a with
    | .reset prev => { st1 with counts := prev }
    | .inc key amt => { st1 with counts := applyDelta st1.counts key amt }
    | .dec key amt => { st1 with counts := applyDelta st1.counts key (-amt) }

/-- part_000 `undoOne`: the inverse of one recorded action, applied to
the live counts. -/
def undoOne (a : Action) (c : Counts) : Counts :=
  match a with
  | .reset prev => prev
  | .inc key amt => applyDelta c key (-amt)
  | .dec key amt => applyDelta c key amt

/-- part_000 `undo`: no-op on empty history, else pop the most recent
entry and apply its inverse. -/
def undo (st : S) : S :=
  match st.history.getLast? with
  | none => st
  | some last => { st with history := st.history.dropLast, counts := undoOne last st.counts }

end P000

namespace TsxV2

/-- Statistic keys of the second GameTracker.tsx revision. The TS key
`to` is rendered as `tov` because `to` is a Lean keyword. -/
inductive LKey where
  | made2 | miss2 | made3 | miss3 | madeFT | missFT
  | orb | drb | ast | tov | stl | pf
  deriving DecidableEq, Repr

/-- `LiveCounts` of the second GameTracker.tsx revision. -/
structure LiveCounts where
  made2 : Int
  miss2 : Int
  made3 : Int
  miss3 : Int
  madeFT : Int
  missFT : Int
  orb : Int
  drb : Int
  ast : Int
  tov : Int
  stl : Int
  pf : Int
  deriving DecidableEq, Repr

/-- Dynamic read of a counts field. -/
def LiveCounts.get (c : LiveCounts) : LKey → Int
  | .made2 => c.made2
  | .miss2 => c.miss2
  | .made3 => c.made3
  | .miss3 => c.miss3
  | .madeFT => c.madeFT
  | .missFT => c.missFT
  | .orb => c.orb
  | .drb => c.drb
  | .ast => c.ast
  | .tov => c.tov
  | .stl => c.stl
  | .pf => c.pf

/-- Dynamic write, the spread update with a computed key. -/
def LiveCounts.set (c : LiveCounts) (k : LKey) (v : Int) : LiveCounts :=
  match k with
  | .made2 => { c with made2 := v }
  | .miss2 => { c with miss2 := v }
  | .made3 => { c with made3 := v }
  | .miss3 => { c with miss3 := v }
  | .madeFT => { c with madeFT := v }
  | .missFT => { c with missFT := v }
  | .orb => { c with orb := v }
  | .drb => { c with drb := v }
  | .ast => { c with ast := v }
  | .tov => { c with tov := v }
  | .stl => { c with stl := v }
  | .pf => { c with pf := v }

/-- `emptyCounts` of the second GameTracker.tsx revision. -/
def emptyCounts : LiveCounts :=
  ⟨0, 0, 0, 0, 0, 0, 0, 0, 0, 0, 0, 0⟩

/-- `clampNonNeg`. -/
def clampNonNeg (n : Int) : Int := max 0 n

/-- History `Action` of the second GameTracker.tsx revision: increments
and decrements carry only the key, resets carry nothing. -/
inductive Action where
  | inc (key : LKey)
  | dec (key : LKey)
  | reset
  deriving DecidableEq, Repr

/-- The slice of component state the tap/undo machinery touches. -/
structure S where
  counts : LiveCounts
  history : List Action
  deriving DecidableEq, Repr

/-- `inc`: unclamped +1 on one key, recorded at the end of the history. -/
def inc (st : S) (key : LKey) : S :=
  { st with
    counts := st.counts.set key (st.counts.get key + 1),
    history := st.history.concat (.inc key) }

/-- `dec`: clamped -1 on one key, recorded at the end of the history. -/
def dec (st : S) (key : LKey) : S :=
  { st with
    counts := st.counts.set key (clampNonNeg (st.counts.get key - 1)),
    history := st.history.concat (.dec key) }

/-- `resetLive`: zero the counts and record a reset entry (which carries
no snapshot in this revision). -/
def resetLive (st : S) : S :=
  { st with counts := emptyCounts, history := st.history.concat .reset }

/-- `undo`: no-op on empty history; otherwise pop the most recent entry
and invert it (an inc is undone by a clamped -1, a dec by +1, and a
reset entry leaves the counts unchanged). -/
def undo (st : S) : S :=
  match st.history.getLast? with
  | none => st
  | some last =>
    { st with
      history := st.history.dropLast,
      counts :=
        match last with
        | .inc key => st.counts.set key (clampNonNeg (st.counts.get key - 1))
        | .dec key => st.counts.set key (st.counts.get key + 1)
        | .reset => st.counts }

end TsxV2

namespace TsxV1

/-- Statistic keys of the first (entitlement-gated) GameTracker.tsx
revision. -/
inductive LKey where
  | fg2m | fg2x | fg3m | fg3x | ftm | ftx
  | orb | drb | ast | tov | stl | foul
  deriving DecidableEq, Repr

/-- `LiveCounts` of the entitlement-gated GameTracker.tsx revision. -/
structure LiveCounts where
  fg2m : Int
  fg2x : Int
  fg3m : Int
  fg3x : Int
  ftm : Int
  ftx : Int
  orb : Int
  drb : Int
  ast : Int
  tov : Int
  stl : Int
  foul : Int
  deriving DecidableEq, Repr

/-- Dynamic read of a counts field. -/
def LiveCounts.get (c : LiveCounts) : LKey → Int
  | .fg2m => c.fg2m
  | .fg2x => c.fg2x
  | .fg3m => c.fg3m
  | .fg3x => c.fg3x
  | .ftm => c.ftm
  | .ftx => c.ftx
  | .orb => c.orb
  | .drb => c.drb
  | .ast => c.ast
  | .tov => c.tov
  | .stl => c.stl
  | .foul => c.foul

/-- Dynamic write, the spread update with a computed key. -/
def LiveCounts.set (c : LiveCounts) (k : LKey) (v : Int) : LiveCounts :=
  match k with
  | .fg2m => { c with fg2m := v }
  | .fg2x => { c with fg2x := v }
  | .fg3m => { c with fg3m := v }
  | .fg3x => { c with fg3x := v }
  | .ftm => { c with ftm := v }
  | .ftx => { c with ftx := v }
  | .orb => { c with orb := v }
  | .drb => { c with drb := v }
  | .ast => { c with ast := v }
  | .tov => { c with tov := v }
  | .stl => { c with stl := v }
  | .foul => { c with foul := v }

/-- `emptyCounts`. -/
def emptyCounts : LiveCounts :=
  ⟨0, 0, 0, 0, 0, 0, 0, 0, 0, 0, 0, 0⟩

/-- The `EntitlementPlan` union of this revision. -/
inductive EntitlementPlan where
  | free | season | unlimited_monthly | unlimited_annual
  deriving DecidableEq, Repr

/-- The `Entitlement` record of this revision. -/
structure Entitlement where
  plan : EntitlementPlan
  singleCredits : Int
  updatedAt : Int
  deriving DecidableEq, Repr

/-- `TRIAL_SAVES = 2`: saves one and two are free, the third attempt
triggers the paywall. -/
def TRIAL_SAVES : Nat := 2

/-- A finalized `GameEntry` of this revision. -/
structure GameEntry where
  id : String
  createdAt : Int
  date : String
  team : String
  opponent : String
  playerName : String
  notes : Option String
  counts : LiveCounts
  deriving DecidableEq, Repr

/-- The component state the save/delete/counter logic touches. -/
structure S where
  games : List GameEntry
  counts : LiveCounts
  date : String
  team : String
  opponent : String
  playerName : String
  notes : String
  selectedPlayer : String
  ent : Entitlement
  showUpgrade : Bool
  deriving DecidableEq, Repr

/-- `isUnlimited`. -/
def isUnlimited (e : Entitlement) : Bool :=
  decide (e.plan = .unlimited_monthly) || decide (e.plan = .unlimited_annual)

/-- `isSeason`. -/
def isSeason (e : Entitlement) : Bool :=
  decide (e.plan = .season)

/-- `hasSingleCredit`. -/
def hasSingleCredit (e : Entitlement) : Bool :=
  decide (0 < e.singleCredits)

/-- `isPaid`. -/
def isPaid (e : Entitlement) : Bool :=
  isUnlimited e || isSeason e || hasSingleCredit e

/-- `gamesForSelected`: the games of the selected player (empty when no
player is selected). -/
def gamesForSelected (st : S) : List GameEntry :=
  let p := trimStr st.selectedPlayer
  if p = "" then [] else st.games.filter (fun g => g.playerName == p)

/-- `savedForPlayer`: how many games are saved for the selected
player. -/
def savedForPlayer (st : S) : Nat :=
  (gamesForSelected st).length

/-- The finalize gate of this revision, the negation of the guard
condition in `saveGame` (save is blocked when the user has not paid and
the selected player already has `TRIAL_SAVES` saved games). -/
def mayFinalize (st : S) : Bool :=
  !(!(isPaid st.ent) && decide (TRIAL_SAVES ≤ savedForPlayer st))

/-- `inc` on the live counts: clamped add on one key. -/
def incCounts (c : LiveCounts) (k : LKey) (delta : Int) : LiveCounts :=
  c.set k (max 0 (c.get k + delta))

/-- `inc` as a state transition. -/
def inc (st : S) (k : LKey) (delta : Int) : S :=
  { st with counts := incCounts st.counts k delta }

/-- JavaScript `a || b` on strings (empty string is falsy). -/
def strOr (a b : String) : String :=
  if a = "" then b else a

/-- `saveGame` of the entitlement-gated revision: validate the player
name, enforce the paywall, append the new entry at the head, consume a
single-game credit when the plan is neither unlimited nor season and a
credit is available, then reset the live tracker. `newId`, `now` and
`today` stand for `makeId()`, `Date.now()` and `todayISO()`. -/
def saveGame (st : S) (newId : String) (now : Int) (today : String) : S :=
  let p := trimStr st.playerName
  if p = "" then st
  else if !(isPaid st.ent) && decide (TRIAL_SAVES ≤ savedForPlayer st) then
    { st with showUpgrade := true }
  else
    let entry : GameEntry :=
      { id := newId
        createdAt := now
        date := strOr st.date today
        team := strOr (trimStr st.team) "Fly Academy"
        opponent := trimStr st.opponent
        playerName := p
        notes := if trimStr st.notes = "" then none else some (trimStr st.notes)
        counts := st.counts }
    let ent' :=
      if !(isUnlimited st.ent) && !(isSeason st.ent) && decide (0 < st.ent.singleCredits) then
        { st.ent with
          singleCredits := max 0 (st.ent.singleCredits - 1),
          updatedAt := now }
      else st.ent
    { st with
      games := entry :: st.games,
      selectedPlayer := p,
      ent := ent',
      counts := emptyCounts,
      notes := "",
      opponent := "" }

/-- `deleteGame`. -/
def deleteGame (st : S) (id : String) : S :=
  { st with games := st.games.filter (fun g => !(g.id == id)) }

end TsxV1

namespace P001

/-- Statistic keys of the part_001 Counts record. The TS key `to` is
rendered as `tov` because `to` is a Lean keyword. -/
inductive CKey where
  | made2 | miss2 | made3 | miss3 | ftm | fta
  | orb | drb | ast | tov | stl | pf
  deriving DecidableEq, Repr

/-- part_001 `Counts`. -/
structure Counts where
  made2 : Int
  miss2 : Int
  made3 : Int
  miss3 : Int
  ftm : Int
  fta : Int
  orb : Int
  drb : Int
  ast : Int
  tov : Int
  stl : Int
  pf : Int
  deriving DecidableEq, Repr

/-- Dynamic read of a counts field. -/
def Counts.get (c : Counts) : CKey → Int
  | .made2 => c.made2
  | .miss2 => c.miss2
  | .made3 => c.made3
  | .miss3 => c.miss3
  | .ftm => c.ftm
  | .fta => c.fta
  | .orb => c.orb
  | .drb => c.drb
  | .ast => c.ast
  | .tov => c.tov
  | .stl => c.stl
  | .pf => c.pf

/-- Dynamic write, the spread update with a computed key. -/
def Counts.set (c : Counts) (k : CKey) (v : Int) : Counts :=
  match k with
  | .made2 => { c with made2 := v }
  | .miss2 => { c with miss2 := v }
  | .made3 => { c with made3 := v }
  | .miss3 => { c with miss3 := v }
  | .ftm => { c with ftm := v }
  | .fta => { c with fta := v }
  | .orb => { c with orb := v }
  | .drb => { c with drb := v }
  | .ast => { c with ast := v }
  | .tov => { c with tov := v }
  | .stl => { c with stl := v }
  | .pf => { c with pf := v }

/-- The all-zero counts used by `resetLive` and the initial state. -/
def emptyCounts : Counts :=
  ⟨0, 0, 0, 0, 0, 0, 0, 0, 0, 0, 0, 0⟩

/-- part_001 `clamp0` (on integers, the finiteness check of the JS
version is vacuous). -/
def clamp0 (n : Int) : Int := max 0 n

/-- part_001 `inc` on the live counts. -/
def incCounts (c : Counts) (key : CKey) (delta : Int) : Counts :=
  c.set key (clamp0 (c.get key + delta))

/-- part_001 `TRIAL_FREE_GAMES`. -/
def TRIAL_FREE_GAMES : Int := 2

/-- The plan union of the part_001 `Entitlements` type. -/
inductive Plan where
  | free | credits | annual
  deriving DecidableEq, Repr

/-- part_001 `Entitlements` (the paywall ledger actually used by the
component); `singleCreditsUsed` is optional in the TS type. -/
structure Entitlements where
  plan : Plan
  creditsRemaining : Int
  freeSavesUsed : Int
  updatedAt : Int
  singleCreditsUsed : Option Int
  deriving DecidableEq, Repr

/-- part_001 `canFinishGame`: the finalize gate. Annual always passes,
credits pass while credits remain, otherwise the free trial applies. -/
def canFinishGame (ent : Entitlements) : Bool :=
  if ent.plan = .annual then true
  else if ent.plan = .credits then decide (0 < ent.creditsRemaining)
  else decide (ent.freeSavesUsed < TRIAL_FREE_GAMES)

/-- part_001 `spendFinishCredit`: no-op for annual, floored decrement of
`creditsRemaining` for credits, otherwise increment `freeSavesUsed`. -/
def spendFinishCredit (ent : Entitlements) (now : Int) : Entitlements :=
  if ent.plan = .annual then ent
  else if ent.plan = .credits then
    { ent with creditsRemaining := max 0 (ent.creditsRemaining - 1), updatedAt := now }
  else
    { ent with freeSavesUsed := ent.freeSavesUsed + 1, updatedAt := now }

/-- The legacy part_001 `Entitlement` record (the helper block above the
component), keyed by `savesRemaining` and `unlimitedUntil`. -/
structure Entitlement where
  savesRemaining : Int
  unlimitedUntil : Option Int
  redeemedSessions : List String
  deriving DecidableEq, Repr

/-- part_001 `hasUnlimited`: the double-negated truthiness test
`e.unlimitedUntil && Date.now() < e.unlimitedUntil` (a null or zero
`unlimitedUntil` is falsy). -/
def hasUnlimited (e : Entitlement) (now : Int) : Bool :=
  match e.unlimitedUntil with
  | none => false
  | some t => decide (t ≠ 0) && decide (now < t)

/-- part_001 `canLogGame` over a possibly-null entitlement. -/
def canLogGame (e : Option Entitlement) (now : Int) : Bool :=
  match e with
  | none => false
  | some e => if hasUnlimited e now then true else decide (0 < e.savesRemaining)

/-- part_001 `TeamLog`. -/
structure TeamLog where
  id : String
  name : String
  createdAt : Int
  deriving DecidableEq, Repr

/-- part_001 `GameEntry`. -/
structure GameEntry where
  id : String
  createdAt : Int
  date : String
  teamLogId : String
  team : String
  opponent : String
  playerName : String
  jerseyNumber : Option String
  notes : Option String
  counts : Counts
  deriving DecidableEq, Repr

/-- JavaScript `a || b` on strings (empty string is falsy). -/
def strOr (a b : String) : String :=
  if a = "" then b else a

/-- The part_001 component state the finalize/delete/counter logic
touches. The undo stack stores revert closures; its entries are not
modelled, and `undoRevert` below models running one of them. -/
structure S where
  games : List GameEntry
  teamLogs : List TeamLog
  selectedTeamLogId : String
  ent : Entitlements
  date : String
  team : String
  opponent : String
  playerName : String
  jerseyNumber : String
  notes : String
  counts : Counts
  selectedPlayer : String
  lastSavedEntry : Option GameEntry
  showUpgrade : Bool
  deriving DecidableEq, Repr

/-- part_001 `saveGame` (the finalize operation): validate the player
name, consult `canFinishGame`, append the entry, run
`spendFinishCredit`, additionally bump `singleCreditsUsed` when the plan
is free (the legacy second increment), and reset the live tracker.
`newId`, `now` and `today` stand for `makeId()`, `Date.now()` and
`todayISO()`. -/
def saveGame (st : S) (newId : String) (now : Int) (today : String) : S :=
  let p := trimStr st.playerName
  if p = "" then st
  else if canFinishGame st.ent = false then { st with showUpgrade := true }
  else
    let entry : GameEntry :=
      { id := newId
        createdAt := now
        date := strOr st.date today
        teamLogId := strOr st.selectedTeamLogId ((st.teamLogs.head?.map TeamLog.id).getD "")
        team := strOr (trimStr st.team) "Fly Academy"
        opponent := trimStr st.opponent
        playerName := p
        jerseyNumber := if trimStr st.jerseyNumber = "" then none else some (trimStr st.jerseyNumber)
        notes := if trimStr st.notes = "" then none else some (trimStr st.notes)
        counts := st.counts }
    let ent1 := spendFinishCredit st.ent now
    let ent2 :=
      if st.ent.plan = .free then
        { ent1 with
          singleCreditsUsed := some (ent1.singleCreditsUsed.getD 0 + 1),
          updatedAt := now }
      else ent1
    { st with
      games := entry :: st.games,
      selectedPlayer := p,
      lastSavedEntry := some entry,
      ent := ent2,
      counts := emptyCounts,
      opponent := "",
      notes := "" }

/-- part_001 `confirmDeleteGame` with a pending id: remove the game and
drop `lastSavedEntry` when it was the deleted one. -/
def deleteGame (st : S) (id : String) : S :=
  { st with
    games := st.games.filter (fun g => !(g.id == id)),
    lastSavedEntry :=
      match st.lastSavedEntry with
      | some e => if e.id == id then none else some e
      | none => none }

/-- part_001 `inc` as a state transition. -/
def inc (st : S) (k : CKey) (delta : Int) : S :=
  { st with counts := incCounts st.counts k delta }

/-- part_001 `undoLastAction` running one stored revert closure: every
closure pushed by `doAction` is built from `inc` calls, so running one
only mutates the live counts. -/
def undoRevert (st : S) (k : CKey) (delta : Int) : S :=
  { st with counts := incCounts st.counts k delta }

end P001

namespace P003

/-- The stored plan union of the part_003 `Entitlements` type. -/
inductive Plan where
  | free | credits | annual
  deriving DecidableEq, Repr

/-- part_003 `Entitlements` (same shape as the part_001 ledger, with
`singleCreditsUsed` required). -/
structure Entitlements where
  plan : Plan
  creditsRemaining : Int
  freeSavesUsed : Int
  updatedAt : Int
  singleCreditsUsed : Int
  deriving DecidableEq, Repr

/-- part_003 `applyPlanToEnt`. The purchased plan token arrives as a
raw string (the page casts the verify response with `as Plan`), so the
token is modelled as a `String`: `"annual"` switches the plan to annual;
every other token switches the plan to credits and grants 1 credit for
`"single"`, 15 for `"pack_15"`, and nothing otherwise. -/
def applyPlanToEnt (e : Entitlements) (plan : String) (now : Int) : Entitlements :=
  if plan = "annual" then
    { e with plan := .annual, updatedAt := now }
  else
    { e with
      plan := .credits,
      creditsRemaining :=
        if plan = "single" then e.creditsRemaining + 1
        else if plan = "pack_15" then e.creditsRemaining + 15
        else e.creditsRemaining,
      updatedAt := now }

/-- The redemption step of part_003 `UpgradeSuccessPage` after a
successful verification: if the session id is already recorded, leave
everything unchanged; otherwise apply the plan to the entitlements and
record the session id at the head of the redemption list, kept to its
first 50 entries (`[sessionId, ...redeemed].slice(0, 50)`). -/
def redeem (redeemed : List String) (e : Entitlements) (sessionId : String)
    (plan : String) (now : Int) : List String × Entitlements :=
  if sessionId ∈ redeemed then (redeemed, e)
  else ((sessionId :: redeemed).take 50, applyPlanToEnt e plan now)

end P003

/-- A fresh part_001 state on the free plan (no finalize consumed yet),
with a valid player name. -/
def freeFreshState : P001.S :=
  { games := []
    teamLogs := [⟨"t1", "Fly Academy", 0⟩]
    selectedTeamLogId := "t1"
    ent := ⟨.free, 0, 0, 0, some 0⟩
    date := "2025-01-01"
    team := "Fly Academy"
    opponent := ""
    playerName := "Jordan"
    jerseyNumber := ""
    notes := ""
    counts := P001.emptyCounts
    selectedPlayer := ""
    lastSavedEntry := none
    showUpgrade := false }

/-- A part_001 state on the free plan whose trial is exhausted
(`freeSavesUsed = 2 = TRIAL_FREE_GAMES`). -/
def freeExhaustedState : P001.S :=
  { freeFreshState with ent := ⟨.free, 0, 2, 0, some 0⟩ }

/-- An entitlement-gated GameTracker.tsx state on the free plan with no
credits whose selected player already has two saved games. -/
def trialUsedState : TsxV1.S :=
  { games := [⟨"g1", 1, "2025-01-01", "Fly Academy", "", "Jordan", none, TsxV1.emptyCounts⟩,
      ⟨"g2", 2, "2025-01-01", "Fly Academy", "", "Jordan", none, TsxV1.emptyCounts⟩]
    counts := TsxV1.emptyCounts
    date := "2025-01-02"
    team := "Fly Academy"
    opponent := ""
    playerName := "Jordan"
    notes := ""
    selectedPlayer := "Jordan"
    ent := ⟨.free, 0, 0⟩
    showUpgrade := false }

/-- An entitlement-gated GameTracker.tsx state on the free plan holding
one purchased single-game credit, with no saved games at all. -/
def creditOnlyState : TsxV1.S :=
  { games := []
    counts := TsxV1.emptyCounts
    date := "2025-01-02"
    team := "Fly Academy"
    opponent := ""
    playerName := "Jordan"
    notes := ""
    selectedPlayer := ""
    ent := ⟨.free, 1, 0⟩
    showUpgrade := false }

/-! Helper lemmas about the key-indexed reads and writes. -/

theorem P000.get_set_self_p000 (c : P000.Counts) (k : P000.CKey) (v : Int) :
    (c.set k v).get k = v := by
  cases k <;> rfl

theorem P000.get_set_ne_p000 (c : P000.Counts) (k k' : P000.CKey) (v : Int) (h : k' ≠ k) :
    (c.set k v).get k' = c.get k' := by
  cases k <;> cases k' <;> first | rfl | exact absurd rfl h

theorem P000.set_get_self_p000 (c : P000.Counts) (k : P000.CKey) :
    c.set k (c.get k) = c := by
  cases k <;> rfl

theorem P000.set_set_p000 (c : P000.Counts) (k : P000.CKey) (v w : Int) :
    (c.set k v).set k w = c.set k w := by
  cases k <;> rfl

theorem TsxV2.get_set_self_v2 (c : TsxV2.LiveCounts) (k : TsxV2.LKey) (v : Int) :
    (c.set k v).get k = v := by
  cases k <;> rfl

theorem TsxV2.set_get_self_v2 (c : TsxV2.LiveCounts) (k : TsxV2.LKey) :
    c.set k (c.get k) = c := by
  cases k <;> rfl

theorem TsxV2.set_set_v2 (c : TsxV2.LiveCounts) (k : TsxV2.LKey) (v w : Int) :
    (c.set k v).set k w = c.set k w := by
  cases k <;> rfl

theorem TsxV1.get_set_self_v1 (c : TsxV1.LiveCounts) (k : TsxV1.LKey) (v : Int) :
    (c.set k v).get k = v := by
  cases k <;> rfl

theorem TsxV1.get_set_ne_v1 (c : TsxV1.LiveCounts) (k k' : TsxV1.LKey) (v : Int) (h : k' ≠ k) :
    (c.set k v).get k' = c.get k' := by
  cases k <;> cases k' <;> first | rfl | exact absurd rfl h

theorem P001.get_set_self_p001 (c : P001.Counts) (k : P001.CKey) (v : Int) :
    (c.set k v).get k = v := by
  cases k <;> rfl

theorem P001.get_set_ne_p001 (c : P001.Counts) (k k' : P001.CKey) (v : Int) (h : k' ≠ k) :
    (c.set k v).get k' = c.get k' := by
  cases k <;> cases k' <;> first | rfl | exact absurd rfl h

/-! Helper lemmas about undoing the most recently recorded entry. -/

theorem P000.undo_concat (c : P000.Counts) (h : List P000.Action) (lt : Int) (a : P000.Action) :
    P000.undo ⟨c, h.concat a, lt⟩ = ⟨P000.undoOne a c, h, lt⟩ := by
  unfold P000.undo
  simp [List.getLast?_concat, List.dropLast_concat]

theorem TsxV2.undo_concat_inc (c : TsxV2.LiveCounts) (h : List TsxV2.Action) (k : TsxV2.LKey) :
    TsxV2.undo ⟨c, h.concat (.inc k)⟩
      = ⟨c.set k (TsxV2.clampNonNeg (c.get k - 1)), h⟩ := by
  unfold TsxV2.undo
  simp [List.getLast?_concat, List.dropLast_concat]

theorem TsxV2.undo_concat_dec (c : TsxV2.LiveCounts) (h : List TsxV2.Action) (k : TsxV2.LKey) :
    TsxV2.undo ⟨c, h.concat (.dec k)⟩ = ⟨c.set k (c.get k + 1), h⟩ := by
  unfold TsxV2.undo
  simp [List.getLast?_concat, List.dropLast_concat]

theorem TsxV2.undo_concat_reset (c : TsxV2.LiveCounts) (h : List TsxV2.Action) :
    TsxV2.undo ⟨c, h.concat .reset⟩ = ⟨c, h⟩ := by
  unfold TsxV2.undo
  simp [List.getLast?_concat, List.dropLast_concat]

/-- Claim C1 (code bug, failing input): in part_001 a single successful
finalize under the free plan does not consume entitlement exactly once.
Starting from a free-plan state with `freeSavesUsed = 0` and
`singleCreditsUsed = 0`, the gate passes and `saveGame` appends the
record, but it increments both `freeSavesUsed` (via
`spendFinishCredit`) and the second usage counter `singleCreditsUsed`
(the legacy double increment), contradicting the single-charge contract
that no other usage counter of the entitlement state changes. -/
theorem c1_free_finalize_double_increments :
    P001.canFinishGame freeFreshState.ent = true ∧
    (P001.saveGame freeFreshState "id1" 100 "2025-01-02").games.length = 1 ∧
    (P001.saveGame freeFreshState "id1" 100 "2025-01-02").ent.freeSavesUsed =
      freeFreshState.ent.freeSavesUsed + 1 ∧
    (P001.saveGame freeFreshState "id1" 100 "2025-01-02").ent.singleCreditsUsed = some 1 ∧
    freeFreshState.ent.singleCreditsUsed = some 0 := by
  refine ⟨rfl, rfl, rfl, rfl, rfl⟩

/-- Claim C2: the finalize gates are exactly the claimed disjunction.
For the part_001 `Entitlements` ledger, `canFinishGame` is true exactly
when the plan is annual (this revision stores no expiry for the
unlimited plan, so it never expires), or the plan is credits with
`creditsRemaining > 0`, or the plan is free with
`freeSavesUsed < TRIAL_FREE_GAMES = 2`. For the legacy part_001
`Entitlement` record, which does carry the `unlimitedUntil` expiry,
`canLogGame` is true exactly when the unlimited purchase is unexpired at
the current time or consumable saves remain; in particular an unlimited
plan whose expiry has passed and a null entitlement yield false. -/
theorem c2_mayFinalize_characterization :
    (∀ e : P001.Entitlements,
        P001.canFinishGame e = true ↔
          (e.plan = .annual ∨
           (e.plan = .credits ∧ 0 < e.creditsRemaining) ∨
           (e.plan = .free ∧ e.freeSavesUsed < P001.TRIAL_FREE_GAMES))) ∧
    (∀ (e : P001.Entitlement) (now : Int),
        P001.canLogGame (some e) now = true ↔
          ((∃ t, e.unlimitedUntil = some t ∧ t ≠ 0 ∧ now < t) ∨ 0 < e.savesRemaining)) ∧
    (∀ now : Int, P001.canLogGame none now = false) := by
  refine ⟨?_, ?_, ?_⟩
  · intro e
    rcases e with ⟨plan, cr, fsu, upd, scu⟩
    cases plan <;> simp [P001.canFinishGame, P001.TRIAL_FREE_GAMES]
  · intro e now
    rcases e with ⟨saves, unl, sess⟩
    cases unl with
    | none => simp [P001.canLogGame, P001.hasUnlimited]
    | some t =>
      by_cases h0 : t = 0
      · subst h0
        simp [P001.canLogGame, P001.hasUnlimited]
      · by_cases hn : now < t
        · simp [P001.canLogGame, P001.hasUnlimited, h0, hn]
        · simp [P001.canLogGame, P001.hasUnlimited, h0, hn]
  · intro now
    rfl

/-- Claim C3: a blocked finalize mutates nothing. In part_001, when the
trimmed player name is blank or `canFinishGame` is false, `saveGame`
leaves both the game collection and the entitlement state unchanged; a
free-plan user with `freeSavesUsed = 2 = TRIAL_FREE_GAMES` has
`canFinishGame = false`, so the third attempt appends nothing. The same
holds for the entitlement-gated GameTracker.tsx `saveGame` when blocked
by a blank name or by the trial guard. -/
theorem c3_blocked_finalize_no_mutation :
    (∀ (st : P001.S) (newId : String) (now : Int) (today : String),
        trimStr st.playerName = "" ∨ P001.canFinishGame st.ent = false →
        (P001.saveGame st newId now today).games = st.games ∧
        (P001.saveGame st newId now today).ent = st.ent) ∧
    (∀ e : P001.Entitlements, e.plan = .free → e.freeSavesUsed = 2 →
        P001.canFinishGame e = false) ∧
    (∀ (st : TsxV1.S) (newId : String) (now : Int) (today : String),
        trimStr st.playerName = "" ∨
          (TsxV1.isPaid st.ent = false ∧ TsxV1.TRIAL_SAVES ≤ TsxV1.savedForPlayer st) →
        (TsxV1.saveGame st newId now today).games = st.games ∧
        (TsxV1.saveGame st newId now today).ent = st.ent) := by
  refine ⟨?_, ?_, ?_⟩
  · intro st newId now today h
    rcases h with h | h
    · simp [P001.saveGame, h]
    · by_cases hp : trimStr st.playerName = ""
      · simp [P001.saveGame, hp]
      · simp [P001.saveGame, hp, h]
  · intro e hplan hfsu
    simp [P001.canFinishGame, P001.TRIAL_FREE_GAMES, hplan, hfsu]
  · intro st newId now today h
    rcases h with h | h
    · simp [TsxV1.saveGame, h]
    · by_cases hp : trimStr st.playerName = ""
      · simp [TsxV1.saveGame, hp]
      · simp [TsxV1.saveGame, hp, h.1, h.2]

/-- Claim C3 witness: on the exhausted free-trial state the finalize
attempt changes neither the games nor the entitlements. -/
theorem c3_blocked_finalize_no_mutation_witness :
    (P001.saveGame freeExhaustedState "id" 0 "2025-01-02").games = freeExhaustedState.games ∧
    (P001.saveGame freeExhaustedState "id" 0 "2025-01-02").ent = freeExhaustedState.ent :=
  c3_blocked_finalize_no_mutation.1 freeExhaustedState "id" 0 "2025-01-02" (Or.inr (by decide))

/-- Claim C4: redemption is idempotent per transaction id. Applying the
part_003 redemption step twice with the same session id yields exactly
the state of applying it once, and when the id is already a member of
the redemption set the step returns its inputs unchanged. -/
theorem c4_redeem_idempotent :
    (∀ (r : List String) (e : P003.Entitlements) (sid plan : String) (n1 n2 : Int),
        P003.redeem (P003.redeem r e sid plan n1).1 (P003.redeem r e sid plan n1).2 sid plan n2
          = P003.redeem r e sid plan n1) ∧
    (∀ (r : List String) (e : P003.Entitlements) (sid plan : String) (n1 : Int),
        sid ∈ r → P003.redeem r e sid plan n1 = (r, e)) := by
  constructor
  · intro r e sid plan n1 n2
    by_cases hm : sid ∈ r
    · simp [P003.redeem, hm]
    · have htake : (sid :: r).take 50 = sid :: r.take 49 := rfl
      have hmem : sid ∈ (sid :: r).take 50 := by
        rw [htake]; exact List.mem_cons_self _ _
      simp [P003.redeem, hm, hmem]
  · intro r e sid plan n1 h
    simp [P003.redeem, h]

/-- Claim C4 witness: redeeming an already-recorded session id is a
no-op on a concrete state. -/
theorem c4_redeem_idempotent_witness :
    P003.redeem ["s1"] (⟨P003.Plan.free, 0, 0, 0, 0⟩ : P003.Entitlements) "s1" "single" 3
      = (["s1"], (⟨P003.Plan.free, 0, 0, 0, 0⟩ : P003.Entitlements)) :=
  c4_redeem_idempotent.2 ["s1"] ⟨P003.Plan.free, 0, 0, 0, 0⟩ "s1" "single" 3 (by decide)

/-- Claim C5 (code bug, failing input): given the unrecognized purchased
plan token "season" (a token the checkout route actually stores in the
session metadata), the part_003 redemption step raises no error and is
not a no-op: it silently switches the stored plan to credits, grants no
credits, stamps `updatedAt`, and records the session id as redeemed, so
the paid purchase is silently lost instead of failing with an
UnrecognizedPlanError and no mutation. -/
theorem c5_unrecognized_plan_silently_mutates :
    P003.redeem [] (⟨P003.Plan.free, 0, 0, 0, 0⟩ : P003.Entitlements) "cs_1" "season" 9
      = (["cs_1"], (⟨P003.Plan.credits, 0, 0, 9, 0⟩ : P003.Entitlements)) := by
  decide

/-- Claim C6 counterexample: in the entitlement-gated GameTracker.tsx
revision the free trial is counted by the saved games of the selected
player, so deleting a game re-opens the gate. On a free-plan state
whose selected player has two saved games the gate is false, yet after
deleting one of those games it is true again although no redemption
occurred, refuting that the gate stays false under game deletion. -/
theorem c6_counterexample_delete_reopens_gate :
    trialUsedState.ent.plan = TsxV1.EntitlementPlan.free ∧
    TsxV1.mayFinalize trialUsedState = false ∧
    TsxV1.mayFinalize (TsxV1.deleteGame trialUsedState "g1") = true := by
  refine ⟨rfl, rfl, rfl⟩

/-- Claim C6 (amended): under the free plan a false finalize gate stays
false across finalize attempts, counter mutations and undo, and in the
part_001 ledger revision also across game deletion, since none of these
operations touch the entitlements; the exception forced by the
counterexample is game deletion in the entitlement-gated
GameTracker.tsx revision, where the trial is counted by saved games of
the selected player. -/
theorem c6_amended_gate_monotonic :
    (∀ (st : P001.S) (newId : String) (now : Int) (today : String),
        P001.canFinishGame st.ent = false →
        P001.canFinishGame (P001.saveGame st newId now today).ent = false) ∧
    (∀ (st : P001.S) (id : String), (P001.deleteGame st id).ent = st.ent) ∧
    (∀ (st : P001.S) (k : P001.CKey) (d : Int), (P001.inc st k d).ent = st.ent) ∧
    (∀ (st : P001.S) (k : P001.CKey) (d : Int), (P001.undoRevert st k d).ent = st.ent) ∧
    (∀ (st : TsxV1.S) (newId : String) (now : Int) (today : String),
        TsxV1.mayFinalize st = false →
        TsxV1.mayFinalize (TsxV1.saveGame st newId now today) = false) ∧
    (∀ (st : TsxV1.S) (k : TsxV1.LKey) (d : Int),
        TsxV1.mayFinalize (TsxV1.inc st k d) = TsxV1.mayFinalize st) := by
  refine ⟨?_, ?_, ?_, ?_, ?_, ?_⟩
  · intro st newId now today h
    by_cases hp : trimStr st.playerName = ""
    · simp [P001.saveGame, hp, h]
    · simp [P001.saveGame, hp, h]
  · intro st id; rfl
  · intro st k d; rfl
  · intro st k d; rfl
  · intro st newId now today h
    by_cases hp : trimStr st.playerName = ""
    · simpa [TsxV1.saveGame, hp] using h
    · have hcond : (!(TsxV1.isPaid st.ent) &&
          decide (TsxV1.TRIAL_SAVES ≤ TsxV1.savedForPlayer st)) = true := by
        unfold TsxV1.mayFinalize at h
        simpa using h
      simp only [TsxV1.saveGame, hp, if_neg hp, hcond, if_true]
      exact h
  · intro st k d; rfl

/-- Claim C6 witness: the blocked gates stay blocked after a finalize
attempt on concrete exhausted-trial states of both revisions. -/
theorem c6_amended_gate_monotonic_witness :
    P001.canFinishGame (P001.saveGame freeExhaustedState "id" 0 "2025-01-02").ent = false ∧
    TsxV1.mayFinalize (TsxV1.saveGame trialUsedState "id" 0 "2025-01-02") = false :=
  ⟨c6_amended_gate_monotonic.1 freeExhaustedState "id" 0 "2025-01-02" (by decide),
   c6_amended_gate_monotonic.2.2.2.2.1 trialUsedState "id" 0 "2025-01-02" (by decide)⟩

/-- Claim C7 counterexample: recording a decrement of a key whose value
is 0 and then undoing does not restore the original Counts. In part_000
a recorded decrement of `tov` by 1 on all-zero counts leaves the value
at 0 (clamped), and the undo then adds 1, ending at 1 instead of 0. -/
theorem c7_counterexample_clamped_dec_not_inverted :
    (⟨P000.emptyCounts, [], -100⟩ : P000.S).counts.tov = 0 ∧
    (P000.undo (P000.tap (⟨P000.emptyCounts, [], -100⟩ : P000.S) 0
        (P000.Action.dec .tov 1))).counts.tov = 1 ∧
    (P000.undo (P000.tap (⟨P000.emptyCounts, [], -100⟩ : P000.S) 0
        (P000.Action.dec .tov 1))).history = [] := by
  refine ⟨rfl, rfl, rfl⟩

/-- Claim C7 (amended): record-then-undo restores the Counts exactly for
every increment (on non-negative counts with a non-negative delta), and
for every decrement that does not clamp (delta at most the old value);
a clamped decrement is the exception forced by the counterexample. In
part_000, undoing a recorded reset restores exactly the snapshot the
entry carried. In the GameTracker.tsx revision the same holds for its
unit increments and unclamped unit decrements, but its reset entries
carry no snapshot, so undoing a reset leaves the counts at zero. -/
theorem c7_amended_undo_inverse :
    (∀ (st : P000.S) (now : Int) (k : P000.CKey) (d : Int),
        0 ≤ st.counts.get k → 0 ≤ d → ¬(now - st.lastTap < 35) →
        (P000.undo (P000.tap st now (.inc k d))).counts = st.counts ∧
        (P000.undo (P000.tap st now (.inc k d))).history = st.history) ∧
    (∀ (st : P000.S) (now : Int) (k : P000.CKey) (d : Int),
        0 ≤ d → d ≤ st.counts.get k → ¬(now - st.lastTap < 35) →
        (P000.undo (P000.tap st now (.dec k d))).counts = st.counts ∧
        (P000.undo (P000.tap st now (.dec k d))).history = st.history) ∧
    (∀ (prev c : P000.Counts), P000.undoOne (.reset prev) c = prev) ∧
    (∀ (st : TsxV2.S) (k : TsxV2.LKey),
        0 ≤ st.counts.get k →
        (TsxV2.undo (TsxV2.inc st k)).counts = st.counts ∧
        (TsxV2.undo (TsxV2.inc st k)).history = st.history) ∧
    (∀ (st : TsxV2.S) (k : TsxV2.LKey),
        1 ≤ st.counts.get k →
        (TsxV2.undo (TsxV2.dec st k)).counts = st.counts ∧
        (TsxV2.undo (TsxV2.dec st k)).history = st.history) ∧
    (∀ st : TsxV2.S,
        (TsxV2.undo (TsxV2.resetLive st)).counts = TsxV2.emptyCounts ∧
        (TsxV2.undo (TsxV2.resetLive st)).history = st.history) := by
  refine ⟨?_, ?_, ?_, ?_, ?_, ?_⟩
  · intro st now k d h0 hd hg
    have htap : P000.tap st now (.inc k d)
        = ⟨P000.applyDelta st.counts k d, st.history.concat (.inc k d), now⟩ := by
      unfold P000.tap
      rw [if_neg hg]
    rw [htap, P000.undo_concat]
    refine ⟨?_, rfl⟩
    show P000.applyDelta (P000.applyDelta st.counts k d) k (-d) = st.counts
    unfold P000.applyDelta
    rw [P000.get_set_self_p000, P000.set_set_p000]
    have hv : P000.clampNonNeg (P000.clampNonNeg (st.counts.get k + d) + -d)
        = st.counts.get k := by
      unfold P000.clampNonNeg
      omega
    rw [hv, P000.set_get_self_p000]
  · intro st now k d hd hle hg
    have htap : P000.tap st now (.dec k d)
        = ⟨P000.applyDelta st.counts k (-d), st.history.concat (.dec k d), now⟩ := by
      unfold P000.tap
      rw [if_neg hg]
    rw [htap, P000.undo_concat]
    refine ⟨?_, rfl⟩
    show P000.applyDelta (P000.applyDelta st.counts k (-d)) k d = st.counts
    unfold P000.applyDelta
    rw [P000.get_set_self_p000, P000.set_set_p000]
    have hv : P000.clampNonNeg (P000.clampNonNeg (st.counts.get k + -d) + d)
        = st.counts.get k := by
      unfold P000.clampNonNeg
      omega
    rw [hv, P000.set_get_self_p000]
  · intro prev c; rfl
  · intro st k h0
    have hinc : TsxV2.inc st k
        = ⟨st.counts.set k (st.counts.get k + 1), st.history.concat (.inc k)⟩ := rfl
    rw [hinc, TsxV2.undo_concat_inc]
    refine ⟨?_, rfl⟩
    rw [TsxV2.get_set_self_v2, TsxV2.set_set_v2]
    have hv : TsxV2.clampNonNeg (st.counts.get k + 1 - 1) = st.counts.get k := by
      unfold TsxV2.clampNonNeg
      omega
    rw [hv, TsxV2.set_get_self_v2]
  · intro st k h1
    have hdec : TsxV2.dec st k
        = ⟨st.counts.set k (TsxV2.clampNonNeg (st.counts.get k - 1)),
            st.history.concat (.dec k)⟩ := rfl
    rw [hdec, TsxV2.undo_concat_dec]
    refine ⟨?_, rfl⟩
    rw [TsxV2.get_set_self_v2, TsxV2.set_set_v2]
    have hv : TsxV2.clampNonNeg (st.counts.get k - 1) + 1 = st.counts.get k := by
      unfold TsxV2.clampNonNeg
      omega
    rw [hv, TsxV2.set_get_self_v2]
  · intro st
    have hres : TsxV2.resetLive st
        = ⟨TsxV2.emptyCounts, st.history.concat .reset⟩ := rfl
    rw [hres, TsxV2.undo_concat_reset]
    exact ⟨rfl, rfl⟩

/-- Claim C7 witness: record-then-undo of an increment by 2 on all-zero
counts restores the all-zero counts exactly. -/
theorem c7_amended_undo_inverse_witness :
    (P000.undo (P000.tap (⟨P000.emptyCounts, [], -100⟩ : P000.S) 0
        (P000.Action.inc .ast 2))).counts = P000.emptyCounts :=
  (c7_amended_undo_inverse.1 ⟨P000.emptyCounts, [], -100⟩ 0 .ast 2
    (by decide) (by decide) (by decide)).1

/-- Claim C8: the counter-apply operation is total and clamped. In all
three embedded revisions (the entitlement-gated GameTracker.tsx `inc`,
the part_001 `inc`, and the part_000 `applyDelta`), for every counts
value, key and integer delta the result at that key is
`max 0 (old + delta)` and every other key is unchanged; in particular a
decrement at 0 stays at 0. -/
theorem c8_counter_apply_clamped_total :
    (∀ (c : TsxV1.LiveCounts) (k : TsxV1.LKey) (d : Int),
        (TsxV1.incCounts c k d).get k = max 0 (c.get k + d) ∧
        ∀ k', k' ≠ k → (TsxV1.incCounts c k d).get k' = c.get k') ∧
    (∀ (c : P001.Counts) (k : P001.CKey) (d : Int),
        (P001.incCounts c k d).get k = max 0 (c.get k + d) ∧
        ∀ k', k' ≠ k → (P001.incCounts c k d).get k' = c.get k') ∧
    (∀ (c : P000.Counts) (k : P000.CKey) (d : Int),
        (P000.applyDelta c k d).get k = max 0 (c.get k + d) ∧
        ∀ k', k' ≠ k → (P000.applyDelta c k d).get k' = c.get k') := by
  refine ⟨fun c k d => ⟨?_, fun k' h => ?_⟩, fun c k d => ⟨?_, fun k' h => ?_⟩,
    fun c k d => ⟨?_, fun k' h => ?_⟩⟩
  · exact TsxV1.get_set_self_v1 c k _
  · exact TsxV1.get_set_ne_v1 c k k' _ h
  · exact P001.get_set_self_p001 c k _
  · exact P001.get_set_ne_p001 c k k' _ h
  · exact P000.get_set_self_p000 c k _
  · exact P000.get_set_ne_p000 c k k' _ h

/-- Claim C8 witness: decrementing the turnover key at 0 leaves it at 0
and leaves the assist key untouched. -/
theorem c8_counter_apply_clamped_total_witness :
    (TsxV1.incCounts TsxV1.emptyCounts .tov (-1)).get .ast = TsxV1.emptyCounts.get .ast :=
  (c8_counter_apply_clamped_total.1 TsxV1.emptyCounts .tov (-1)).2 .ast (by decide)

/-- Claim C9 counterexample: the redemption set does shrink at the cap.
The part_003 redemption stores only the first 50 entries of the updated
list, so redeeming a fresh session id over a set that already holds 50
ids evicts the oldest one: the id "tx49" is a member before and not a
member after, although it had been added earlier. -/
theorem c9_counterexample_cap_evicts_oldest :
    "tx49" ∈ (List.range 50).map (fun i => "tx" ++ toString i) ∧
    "tx49" ∉ (P003.redeem ((List.range 50).map (fun i => "tx" ++ toString i))
        (⟨P003.Plan.free, 0, 0, 0, 0⟩ : P003.Entitlements) "txNew" "single" 1).1 := by
  constructor <;> decide

/-- Claim C9 (amended): the redemption set grows monotonically below its
cap of 50 entries: whenever the stored set holds fewer than 50 ids,
every member survives a redemption, and a redeemed id is always a
member immediately afterwards; only the cap, which keeps the 50 most
recent ids and evicts the oldest, ever removes an id. -/
theorem c9_amended_monotone_below_cap :
    (∀ (r : List String) (e : P003.Entitlements) (sid plan : String) (now : Int) (x : String),
        r.length < 50 → x ∈ r → x ∈ (P003.redeem r e sid plan now).1) ∧
    (∀ (r : List String) (e : P003.Entitlements) (sid plan : String) (now : Int),
        sid ∈ (P003.redeem r e sid plan now).1) := by
  constructor
  · intro r e sid plan now x hlen hx
    by_cases hm : sid ∈ r
    · simpa [P003.redeem, hm] using hx
    · have htake : (sid :: r).take 50 = sid :: r := by
        apply List.take_of_length_le
        simp
        omega
      simp [P003.redeem, hm, htake]
      exact Or.inr hx
  · intro r e sid plan now
    by_cases hm : sid ∈ r
    · simp [P003.redeem, hm]
    · have htake : (sid :: r).take 50 = sid :: r.take 49 := rfl
      simp [P003.redeem, hm, htake]

/-- Claim C9 witness: a previously recorded id survives a fresh
redemption on a small concrete set. -/
theorem c9_amended_monotone_below_cap_witness :
    "a" ∈ (P003.redeem ["a"] (⟨P003.Plan.free, 0, 0, 0, 0⟩ : P003.Entitlements) "b" "single" 0).1 :=
  c9_amended_monotone_below_cap.1 ["a"] ⟨P003.Plan.free, 0, 0, 0, 0⟩ "b" "single" 0 "a"
    (by decide) (by decide)

/-- Claim C10: in the entitlement-gated GameTracker.tsx revision, every
successful save with a plan that is neither season nor unlimited and
with `singleCredits > 0` appends the game and decrements
`singleCredits` by exactly 1, with no condition on how many games the
selected player has saved, so a save the free trial alone would have
permitted still consumes the purchased credit. -/
theorem c10_single_credit_consumed_on_save :
    ∀ (st : TsxV1.S) (newId : String) (now : Int) (today : String),
      trimStr st.playerName ≠ "" →
      TsxV1.isUnlimited st.ent = false →
      TsxV1.isSeason st.ent = false →
      0 < st.ent.singleCredits →
      ∃ entry, (TsxV1.saveGame st newId now today).games = entry :: st.games ∧
        (TsxV1.saveGame st newId now today).ent.singleCredits = st.ent.singleCredits - 1 := by
  intro st newId now today hp hu hs hc
  have hpaid : TsxV1.isPaid st.ent = true := by
    simp [TsxV1.isPaid, TsxV1.hasSingleCredit, hc]
  simp only [TsxV1.saveGame, hp, hpaid, if_false, Bool.not_true, Bool.false_and,
    Bool.not_false, if_neg hp, Bool.false_eq_true, hu, hs]
  refine ⟨_, rfl, ?_⟩
  simp [hc]
  omega

/-- Claim C10 witness: the single credit is consumed on a state whose
selected player is still below the free-trial limit (no saved games at
all). -/
theorem c10_single_credit_consumed_on_save_witness :
    TsxV1.savedForPlayer creditOnlyState < TsxV1.TRIAL_SAVES ∧
    (∃ entry,
      (TsxV1.saveGame creditOnlyState "id" 5 "2025-01-02").games
        = entry :: creditOnlyState.games ∧
      (TsxV1.saveGame creditOnlyState "id" 5 "2025-01-02").ent.singleCredits
        = creditOnlyState.ent.singleCredits - 1) :=
  ⟨by decide,
   c10_single_credit_consumed_on_save creditOnlyState "id" 5 "2025-01-02"
     (by decide) (by decide) (by decide) (by decide)⟩
